import Mathlib

/-!
Shallow embedding of the libryzenadj binding (src/src/lib.rs).

The binding wraps an external native library through a generated `sys`
crate.  The native library is modelled as an oracle (`NativeLib`): a
function table giving, for each named native entry point, the value or
status code it would return.  Every public method of the binding is
translated into a pure Lean function that returns its result together
with the list of native calls it performed, so that claims about
"no native call occurs" or "exactly one release" are statements about
the trace.  Methods take `&self` in the source and contain no field
assignment, so the session state is passed through unchanged.
-/

/-- Mirror of `f32` as the binding observes it: the code only ever tests
`is_nan` and passes the value through unchanged, so a float is either
the NaN sentinel or an opaque non-NaN value. -/
inductive F32 where
  | nan : F32
  | fin : Int → F32
deriving DecidableEq

def F32.is_nan : F32 → Bool
  | .nan => true
  | .fin _ => false

/-- Mirror of `enum RyzenAdjError` (src/src/lib.rs lines 8-40).
`InitError` carries the `errno` value as an integer. -/
inductive RyzenAdjError where
  | InitError (errno : Int)
  | InitTableError (code : Int)
  | GetNaN
  | UnknowFamily (raw : Int)
  | AdjFamilyNotSupported
  | AdjMemoryAccessError
  | AdjSmuRejected
  | AdjSmuTimeout
  | AdjSmuUnsupported
  | AdjUnknowError (code : Int)
deriving DecidableEq

/-- Mirror of `type RyzenAdjResult<T> = Result<T, RyzenAdjError>`. -/
abbrev RyzenAdjResult (α : Type) := Except RyzenAdjError α

/-- Modelled from the spec: the generated `libryzenadj_sys` bindings are
not under `src/`; the native write-status sentinel constants they expose
("integer status/sentinel constants for write outcomes") are five
distinct non-zero integers, here given the native header's values. -/
def ADJ_ERR_FAM_UNSUPPORTED : Int := -1

def ADJ_ERR_SMU_TIMEOUT : Int := -2

def ADJ_ERR_SMU_UNSUPPORTED : Int := -3

def ADJ_ERR_SMU_REJECTED : Int := -4

def ADJ_ERR_MEMORY_ACCESS : Int := -5

/-- Modelled from the spec: the generated `libryzenadj_sys` bindings are
not under `src/`; the native CPU-family identifiers ("a closed
enumeration of recognized processor family identifiers") are distinct
integers, here given the native header's values. -/
def ryzen_family_FAM_UNKNOWN : Int := -1

def ryzen_family_FAM_RAVEN : Int := 0

def ryzen_family_FAM_PICASSO : Int := 1

def ryzen_family_FAM_RENOIR : Int := 2

def ryzen_family_FAM_CEZANNE : Int := 3

def ryzen_family_FAM_DALI : Int := 4

def ryzen_family_FAM_LUCIENNE : Int := 5

def ryzen_family_FAM_VANGOGH : Int := 6

def ryzen_family_FAM_REMBRANDT : Int := 7

/-- Mirror of `enum RyzenFamily` (src/src/lib.rs lines 51-73). -/
inductive RyzenFamily where
  | Unknow
  | Raven
  | Picassso
  | Renoir
  | Cezanne
  | Dali
  | Lucienne
  | Vangogh
  | Rembrandt
deriving DecidableEq

/-- Mirror of the `TryFromPrimitive`-derived `RyzenFamily::try_from`:
each declared discriminant maps to its variant, anything else fails. -/
def RyzenFamily.try_from (value : Int) : Option RyzenFamily :=
  if value = ryzen_family_FAM_UNKNOWN then some .Unknow
  else if value = ryzen_family_FAM_RAVEN then some .Raven
  else if value = ryzen_family_FAM_PICASSO then some .Picassso
  else if value = ryzen_family_FAM_RENOIR then some .Renoir
  else if value = ryzen_family_FAM_CEZANNE then some .Cezanne
  else if value = ryzen_family_FAM_DALI then some .Dali
  else if value = ryzen_family_FAM_LUCIENNE then some .Lucienne
  else if value = ryzen_family_FAM_VANGOGH then some .Vangogh
  else if value = ryzen_family_FAM_REMBRANDT then some .Rembrandt
  else none

/-- One invocation of a native entry point: the C function's name, the
session handle passed to it (none for `init_ryzenadj`, which takes no
handle), and its further unsigned arguments (core index or value). -/
structure NativeCall where
  name : String
  handle : Option Nat
  args : List Nat
deriving DecidableEq

/-- Oracle for the external native library (the fixed C function table
the binding consumes): for each named entry point, the float value,
integer value, or status code it would return, plus the handle (or null)
produced by `init_ryzenadj` and the `errno` observable at that moment. -/
structure NativeLib where
  initHandle : Option Nat
  errnoVal : Int
  f32Of : String → Nat → List Nat → F32
  intOf : String → Nat → Int
  statusOf : String → Nat → List Nat → Int

/-- Mirror of `struct RyzenAdj` (src/src/lib.rs lines 45-48): the raw
session pointer is modelled as an opaque handle number. -/
structure RyzenAdj where
  ryzen_adj : Nat
  init_table_result : Option Int
deriving DecidableEq

namespace RyzenAdj

/-- Mirror of `RyzenAdj::new` (src/src/lib.rs lines 77-96). -/
def new (lib : NativeLib) : RyzenAdjResult RyzenAdj × List NativeCall :=
  match lib.initHandle with
  | none => (.error (.InitError lib.errnoVal), [⟨"init_ryzenadj", none, []⟩])
  | some h =>
      let init_table_result := lib.statusOf "init_table" h []
      (.ok ⟨h, if init_table_result ≠ 0 then some init_table_result else none⟩,
       [⟨"init_ryzenadj", none, []⟩, ⟨"init_table", some h, []⟩])

/-- Mirror of `RyzenAdj::is_init_table` (src/src/lib.rs lines 98-104). -/
def is_init_table (self : RyzenAdj) : RyzenAdjResult Unit :=
  match self.init_table_result with
  | some init_table_result => .error (.InitTableError init_table_result)
  | none => .ok ()

/-- Mirror of `RyzenAdj::is_nan` (src/src/lib.rs lines 106-112). -/
def is_nan (value : F32) : RyzenAdjResult F32 :=
  if value.is_nan then .error .GetNaN else .ok value

/-- Mirror of `RyzenAdj::adj_code` (src/src/lib.rs lines 114-124); a
Rust `match` on integer constants tests the arms in order. -/
def adj_code (code : Int) : RyzenAdjResult Unit :=
  if code = 0 then .ok ()
  else if code = ADJ_ERR_FAM_UNSUPPORTED then .error .AdjFamilyNotSupported
  else if code = ADJ_ERR_MEMORY_ACCESS then .error .AdjMemoryAccessError
  else if code = ADJ_ERR_SMU_REJECTED then .error .AdjSmuRejected
  else if code = ADJ_ERR_SMU_TIMEOUT then .error .AdjSmuTimeout
  else if code = ADJ_ERR_SMU_UNSUPPORTED then .error .AdjSmuUnsupported
  else .error (.AdjUnknowError code)

/-- Mirror of `RyzenAdj::refresh` (src/src/lib.rs lines 126-134). -/
def refresh (lib : NativeLib) (self : RyzenAdj) :
    RyzenAdjResult Unit × List NativeCall :=
  match is_init_table self with
  | .error e => (.error e, [])
  | .ok _ =>
      let result := lib.statusOf "refresh_table" self.ryzen_adj []
      (if result ≠ 0 then .error (.InitTableError result) else .ok (),
       [⟨"refresh_table", some self.ryzen_adj, []⟩])

/-- Shared shape of every float getter in the source
(`self.is_init_table()?; Self::is_nan(unsafe { native(self.ryzen_adj) })`),
instantiated below once per method with its native function's name. -/
def getF (name : String) (lib : NativeLib) (self : RyzenAdj) :
    RyzenAdjResult F32 × List NativeCall :=
  match is_init_table self with
  | .error e => (.error e, [])
  | .ok _ =>
      (is_nan (lib.f32Of name self.ryzen_adj []),
       [⟨name, some self.ryzen_adj, []⟩])

/-- Shared shape of the per-core float getters
(`self.is_init_table()?; Self::is_nan(unsafe { native(self.ryzen_adj, core) })`). -/
def getFCore (name : String) (lib : NativeLib) (self : RyzenAdj) (core : Nat) :
    RyzenAdjResult F32 × List NativeCall :=
  match is_init_table self with
  | .error e => (.error e, [])
  | .ok _ =>
      (is_nan (lib.f32Of name self.ryzen_adj [core]),
       [⟨name, some self.ryzen_adj, [core]⟩])

/-- Shared shape of every value setter in the source
(`Self::adj_code(unsafe { native(self.ryzen_adj, value) })`). -/
def setV (name : String) (lib : NativeLib) (self : RyzenAdj) (value : Nat) :
    RyzenAdjResult Unit × List NativeCall :=
  (adj_code (lib.statusOf name self.ryzen_adj [value]),
   [⟨name, some self.ryzen_adj, [value]⟩])

/-- Shared shape of the no-argument setters
(`Self::adj_code(unsafe { native(self.ryzen_adj) })`). -/
def setNoArg (name : String) (lib : NativeLib) (self : RyzenAdj) :
    RyzenAdjResult Unit × List NativeCall :=
  (adj_code (lib.statusOf name self.ryzen_adj []),
   [⟨name, some self.ryzen_adj, []⟩])

def get_apu_skin_temp_limit := getF "get_apu_skin_temp_limit"

def get_apu_skin_temp_value := getF "get_apu_skin_temp_value"

def get_apu_slow_limit := getF "get_apu_slow_limit"

def get_apu_slow_value := getF "get_apu_slow_value"

/-- Mirror of `RyzenAdj::get_bios_if_ver` (src/src/lib.rs lines 156-159):
the one integer-valued read, returned with no NaN check. -/
def get_bios_if_ver (lib : NativeLib) (self : RyzenAdj) :
    RyzenAdjResult Int × List NativeCall :=
  match is_init_table self with
  | .error e => (.error e, [])
  | .ok _ =>
      (.ok (lib.intOf "get_bios_if_ver" self.ryzen_adj),
       [⟨"get_bios_if_ver", some self.ryzen_adj, []⟩])

def get_cclk_busy_value := getF "get_cclk_busy_value"

def get_cclk_setpoint := getF "get_cclk_setpoint"

def get_core_clk := getFCore "get_core_clk"

def get_core_power := getFCore "get_core_power"

def get_core_temp := getFCore "get_core_temp"

def get_core_volt := getFCore "get_core_volt"

/-- Mirror of `RyzenAdj::get_cpu_family` (src/src/lib.rs lines 191-195). -/
def get_cpu_family (lib : NativeLib) (self : RyzenAdj) :
    RyzenAdjResult RyzenFamily × List NativeCall :=
  match is_init_table self with
  | .error e => (.error e, [])
  | .ok _ =>
      let family_int := lib.intOf "get_cpu_family" self.ryzen_adj
      (match RyzenFamily.try_from family_int with
       | some family => .ok family
       | none => .error (.UnknowFamily family_int),
       [⟨"get_cpu_family", some self.ryzen_adj, []⟩])

def get_dgpu_skin_temp_limit := getF "get_dgpu_skin_temp_limit"

def get_dgpu_skin_temp_value := getF "get_dgpu_skin_temp_value"

def get_fast_limit := getF "get_fast_limit"

def get_fast_value := getF "get_fast_value"

def get_fclk := getF "get_fclk"

def get_gfx_temp := getF "get_gfx_temp"

def get_gfx_clk := getF "get_gfx_clk"

def get_gfx_volt := getF "get_gfx_volt"

def get_l3_clk := getF "get_l3_clk"

def get_l3_logic := getF "get_l3_logic"

def get_l3_temp := getF "get_l3_temp"

def get_l3_vddm := getF "get_l3_vddm"

def get_mem_clk := getF "get_mem_clk"

def get_psi0_current := getF "get_psi0_current"

def get_psi0soc_current := getF "get_psi0soc_current"

def get_slow_limit := getF "get_slow_limit"

def get_slow_time := getF "get_slow_time"

def get_slow_value := getF "get_slow_value"

def get_soc_power := getF "get_soc_power"

def get_soc_volt := getF "get_soc_volt"

def get_socket_power := getF "get_socket_power"

def get_stapm_limit := getF "get_stapm_limit"

def get_stapm_time := getF "get_stapm_time"

def get_stapm_value := getF "get_stapm_value"

def get_tctl_temp := getF "get_tctl_temp"

/-- Mirror of `RyzenAdj::get_tctl_temp_value` (src/src/lib.rs lines
322-325): its body invokes the native `get_tctl_temp`, not a distinct
value-reading entry point. -/
def get_tctl_temp_value := getF "get_tctl_temp"

def get_vrm_current := getF "get_vrm_current"

def get_vrm_current_value := getF "get_vrm_current_value"

def get_vrmmax_current := getF "get_vrmmax_current"

def get_vrmmax_current_value := getF "get_vrmmax_current_value"

def get_vrmsoc_current := getF "get_vrmsoc_current"

def get_vrmsoc_current_value := getF "get_vrmsoc_current_value"

def get_vrmsocmax_current := getF "get_vrmsocmax_current"

def get_vrmsocmax_current_value := getF "get_vrmsocmax_current_value"

def set_apu_skin_temp_limit := setV "set_apu_skin_temp_limit"

def set_apu_slow_limit := setV "set_apu_slow_limit"

def set_coall := setV "set_coall"

/-- Mirror of `RyzenAdj::set_cogfx` (src/src/lib.rs lines 379-381): its
body invokes the native `set_coall`. -/
def set_cogfx := setV "set_coall"

/-- Mirror of `RyzenAdj::set_coper` (src/src/lib.rs lines 383-385): its
body invokes the native `set_coall` and takes no core index. -/
def set_coper := setV "set_coall"

/-- Mirror of `RyzenAdj::set_dgpu_skin_temp_limit` (src/src/lib.rs lines
387-389): its body invokes the native `set_coall`. -/
def set_dgpu_skin_temp_limit := setV "set_coall"

def set_enable_oc := setNoArg "set_enable_oc"

def set_disable_oc := setNoArg "set_disable_oc"

def set_fast_limit := setV "set_fast_limit"

def set_gfx_clk := setV "set_gfx_clk"

def set_max_fclk_freq := setV "set_max_fclk_freq"

def set_max_gfxclk_freq := setV "set_max_gfxclk_freq"

def set_max_lclk := setV "set_max_lclk"

def set_max_performance := setNoArg "set_max_performance"

def set_max_socclk_freq := setV "set_max_socclk_freq"

def set_max_vcn := setV "set_max_vcn"

def set_min_fclk_freq := setV "set_min_fclk_freq"

def set_min_gfxclk_freq := setV "set_min_gfxclk_freq"

def set_min_lclk := setV "set_min_lclk"

def set_min_socclk_freq := setV "set_min_socclk_freq"

def set_min_vcn := setV "set_min_vcn"

def set_oc_clk := setV "set_oc_clk"

def set_oc_volt := setV "set_oc_volt"

def set_per_core_oc_clk := setV "set_per_core_oc_clk"

def set_power_saving := setNoArg "set_power_saving"

def set_prochot_deassertion_ramp := setV "set_prochot_deassertion_ramp"

def set_psi0_current := setV "set_psi0_current"

def set_psi0soc_current := setV "set_psi0soc_current"

def set_psi3cpu_current := setV "set_psi3cpu_current"

def set_psi3gfx_current := setV "set_psi3gfx_current"

def set_skin_temp_power_limit := setV "set_skin_temp_power_limit"

def set_slow_limit := setV "set_slow_limit"

def set_slow_time := setV "set_slow_time"

def set_stapm_limit := setV "set_stapm_limit"

def set_stapm_time := setV "set_stapm_time"

def set_tctl_temp := setV "set_tctl_temp"

def set_vrm_current := setV "set_vrm_current"

def set_vrmcvip_current := setV "set_vrmcvip_current"

def set_vrmgfx_current := setV "set_vrmgfx_current"

def set_vrmgfxmax_current := setV "set_vrmgfxmax_current"

def set_vrmmax_current := setV "set_vrmmax_current"

def set_vrmsoc_current := setV "set_vrmsoc_current"

def set_vrmsocmax_current := setV "set_vrmsocmax_current"

/-- Mirror of `impl Drop for RyzenAdj` (src/src/lib.rs lines 542-548):
the teardown body performs the single native `cleanup_ryzenadj` call on
the owned handle. -/
def drop (self : RyzenAdj) : List NativeCall :=
  [⟨"cleanup_ryzenadj", some self.ryzen_adj, []⟩]

end RyzenAdj

/-- Result of one public operation, with the heterogeneous return types
of the source methods merged into one sum. -/
inductive OpOutcome where
  | okUnit
  | okF32 (v : F32)
  | okInt (v : Int)
  | okFamily (f : RyzenFamily)
  | err (e : RyzenAdjError)
deriving DecidableEq

def OpOutcome.ofU : RyzenAdjResult Unit → OpOutcome
  | .ok _ => .okUnit
  | .error e => .err e

def OpOutcome.ofF : RyzenAdjResult F32 → OpOutcome
  | .ok v => .okF32 v
  | .error e => .err e

def OpOutcome.ofI : RyzenAdjResult Int → OpOutcome
  | .ok v => .okInt v
  | .error e => .err e

def OpOutcome.ofFam : RyzenAdjResult RyzenFamily → OpOutcome
  | .ok f => .okFamily f
  | .error e => .err e

/-- Outcome, native-call trace, and post-state of one public operation.
Every method takes `&self` and contains no field assignment, so the
post-state is the receiver unchanged. -/
structure StepResult where
  out : OpOutcome
  trace : List NativeCall
  post : RyzenAdj

def liftU (st : RyzenAdj) (r : RyzenAdjResult Unit × List NativeCall) : StepResult :=
  ⟨OpOutcome.ofU r.1, r.2, st⟩

def liftF (st : RyzenAdj) (r : RyzenAdjResult F32 × List NativeCall) : StepResult :=
  ⟨OpOutcome.ofF r.1, r.2, st⟩

def liftI (st : RyzenAdj) (r : RyzenAdjResult Int × List NativeCall) : StepResult :=
  ⟨OpOutcome.ofI r.1, r.2, st⟩

def liftFam (st : RyzenAdj) (r : RyzenAdjResult RyzenFamily × List NativeCall) : StepResult :=
  ⟨OpOutcome.ofFam r.1, r.2, st⟩

/-- The complete public operation surface of `impl RyzenAdj` after
construction: `refresh`, the 46 read methods, and the 43 write methods,
with their parameters. -/
inductive Op where
  | refresh
  | get_apu_skin_temp_limit
  | get_apu_skin_temp_value
  | get_apu_slow_limit
  | get_apu_slow_value
  | get_bios_if_ver
  | get_cclk_busy_value
  | get_cclk_setpoint
  | get_core_clk (core : Nat)
  | get_core_power (core : Nat)
  | get_core_temp (core : Nat)
  | get_core_volt (core : Nat)
  | get_cpu_family
  | get_dgpu_skin_temp_limit
  | get_dgpu_skin_temp_value
  | get_fast_limit
  | get_fast_value
  | get_fclk
  | get_gfx_temp
  | get_gfx_clk
  | get_gfx_volt
  | get_l3_clk
  | get_l3_logic
  | get_l3_temp
  | get_l3_vddm
  | get_mem_clk
  | get_psi0_current
  | get_psi0soc_current
  | get_slow_limit
  | get_slow_time
  | get_slow_value
  | get_soc_power
  | get_soc_volt
  | get_socket_power
  | get_stapm_limit
  | get_stapm_time
  | get_stapm_value
  | get_tctl_temp
  | get_tctl_temp_value
  | get_vrm_current
  | get_vrm_current_value
  | get_vrmmax_current
  | get_vrmmax_current_value
  | get_vrmsoc_current
  | get_vrmsoc_current_value
  | get_vrmsocmax_current
  | get_vrmsocmax_current_value
  | set_apu_skin_temp_limit (value : Nat)
  | set_apu_slow_limit (value : Nat)
  | set_coall (value : Nat)
  | set_cogfx (value : Nat)
  | set_coper (value : Nat)
  | set_dgpu_skin_temp_limit (value : Nat)
  | set_enable_oc
  | set_disable_oc
  | set_fast_limit (value : Nat)
  | set_gfx_clk (value : Nat)
  | set_max_fclk_freq (value : Nat)
  | set_max_gfxclk_freq (value : Nat)
  | set_max_lclk (value : Nat)
  | set_max_performance
  | set_max_socclk_freq (value : Nat)
  | set_max_vcn (value : Nat)
  | set_min_fclk_freq (value : Nat)
  | set_min_gfxclk_freq (value : Nat)
  | set_min_lclk (value : Nat)
  | set_min_socclk_freq (value : Nat)
  | set_min_vcn (value : Nat)
  | set_oc_clk (value : Nat)
  | set_oc_volt (value : Nat)
  | set_per_core_oc_clk (value : Nat)
  | set_power_saving
  | set_prochot_deassertion_ramp (value : Nat)
  | set_psi0_current (value : Nat)
  | set_psi0soc_current (value : Nat)
  | set_psi3cpu_current (value : Nat)
  | set_psi3gfx_current (value : Nat)
  | set_skin_temp_power_limit (value : Nat)
  | set_slow_limit (value : Nat)
  | set_slow_time (value : Nat)
  | set_stapm_limit (value : Nat)
  | set_stapm_time (value : Nat)
  | set_tctl_temp (value : Nat)
  | set_vrm_current (value : Nat)
  | set_vrmcvip_current (value : Nat)
  | set_vrmgfx_current (value : Nat)
  | set_vrmgfxmax_current (value : Nat)
  | set_vrmmax_current (value : Nat)
  | set_vrmsoc_current (value : Nat)
  | set_vrmsocmax_current (value : Nat)

/-- Dispatcher: run one public operation against the oracle. -/
def Op.run (lib : NativeLib) (st : RyzenAdj) : Op → StepResult
  | .refresh => liftU st (RyzenAdj.refresh lib st)
  | .get_apu_skin_temp_limit => liftF st (RyzenAdj.get_apu_skin_temp_limit lib st)
  | .get_apu_skin_temp_value => liftF st (RyzenAdj.get_apu_skin_temp_value lib st)
  | .get_apu_slow_limit => liftF st (RyzenAdj.get_apu_slow_limit lib st)
  | .get_apu_slow_value => liftF st (RyzenAdj.get_apu_slow_value lib st)
  | .get_bios_if_ver => liftI st (RyzenAdj.get_bios_if_ver lib st)
  | .get_cclk_busy_value => liftF st (RyzenAdj.get_cclk_busy_value lib st)
  | .get_cclk_setpoint => liftF st (RyzenAdj.get_cclk_setpoint lib st)
  | .get_core_clk core => liftF st (RyzenAdj.get_core_clk lib st core)
  | .get_core_power core => liftF st (RyzenAdj.get_core_power lib st core)
  | .get_core_temp core => liftF st (RyzenAdj.get_core_temp lib st core)
  | .get_core_volt core => liftF st (RyzenAdj.get_core_volt lib st core)
  | .get_cpu_family => liftFam st (RyzenAdj.get_cpu_family lib st)
  | .get_dgpu_skin_temp_limit => liftF st (RyzenAdj.get_dgpu_skin_temp_limit lib st)
  | .get_dgpu_skin_temp_value => liftF st (RyzenAdj.get_dgpu_skin_temp_value lib st)
  | .get_fast_limit => liftF st (RyzenAdj.get_fast_limit lib st)
  | .get_fast_value => liftF st (RyzenAdj.get_fast_value lib st)
  | .get_fclk => liftF st (RyzenAdj.get_fclk lib st)
  | .get_gfx_temp => liftF st (RyzenAdj.get_gfx_temp lib st)
  | .get_gfx_clk => liftF st (RyzenAdj.get_gfx_clk lib st)
  | .get_gfx_volt => liftF st (RyzenAdj.get_gfx_volt lib st)
  | .get_l3_clk => liftF st (RyzenAdj.get_l3_clk lib st)
  | .get_l3_logic => liftF st (RyzenAdj.get_l3_logic lib st)
  | .get_l3_temp => liftF st (RyzenAdj.get_l3_temp lib st)
  | .get_l3_vddm => liftF st (RyzenAdj.get_l3_vddm lib st)
  | .get_mem_clk => liftF st (RyzenAdj.get_mem_clk lib st)
  | .get_psi0_current => liftF st (RyzenAdj.get_psi0_current lib st)
  | .get_psi0soc_current => liftF st (RyzenAdj.get_psi0soc_current lib st)
  | .get_slow_limit => liftF st (RyzenAdj.get_slow_limit lib st)
  | .get_slow_time => liftF st (RyzenAdj.get_slow_time lib st)
  | .get_slow_value => liftF st (RyzenAdj.get_slow_value lib st)
  | .get_soc_power => liftF st (RyzenAdj.get_soc_power lib st)
  | .get_soc_volt => liftF st (RyzenAdj.get_soc_volt lib st)
  | .get_socket_power => liftF st (RyzenAdj.get_socket_power lib st)
  | .get_stapm_limit => liftF st (RyzenAdj.get_stapm_limit lib st)
  | .get_stapm_time => liftF st (RyzenAdj.get_stapm_time lib st)
  | .get_stapm_value => liftF st (RyzenAdj.get_stapm_value lib st)
  | .get_tctl_temp => liftF st (RyzenAdj.get_tctl_temp lib st)
  | .get_tctl_temp_value => liftF st (RyzenAdj.get_tctl_temp_value lib st)
  | .get_vrm_current => liftF st (RyzenAdj.get_vrm_current lib st)
  | .get_vrm_current_value => liftF st (RyzenAdj.get_vrm_current_value lib st)
  | .get_vrmmax_current => liftF st (RyzenAdj.get_vrmmax_current lib st)
  | .get_vrmmax_current_value => liftF st (RyzenAdj.get_vrmmax_current_value lib st)
  | .get_vrmsoc_current => liftF st (RyzenAdj.get_vrmsoc_current lib st)
  | .get_vrmsoc_current_value => liftF st (RyzenAdj.get_vrmsoc_current_value lib st)
  | .get_vrmsocmax_current => liftF st (RyzenAdj.get_vrmsocmax_current lib st)
  | .get_vrmsocmax_current_value => liftF st (RyzenAdj.get_vrmsocmax_current_value lib st)
  | .set_apu_skin_temp_limit v => liftU st (RyzenAdj.set_apu_skin_temp_limit lib st v)
  | .set_apu_slow_limit v => liftU st (RyzenAdj.set_apu_slow_limit lib st v)
  | .set_coall v => liftU st (RyzenAdj.set_coall lib st v)
  | .set_cogfx v => liftU st (RyzenAdj.set_cogfx lib st v)
  | .set_coper v => liftU st (RyzenAdj.set_coper lib st v)
  | .set_dgpu_skin_temp_limit v => liftU st (RyzenAdj.set_dgpu_skin_temp_limit lib st v)
  | .set_enable_oc => liftU st (RyzenAdj.set_enable_oc lib st)
  | .set_disable_oc => liftU st (RyzenAdj.set_disable_oc lib st)
  | .set_fast_limit v => liftU st (RyzenAdj.set_fast_limit lib st v)
  | .set_gfx_clk v => liftU st (RyzenAdj.set_gfx_clk lib st v)
  | .set_max_fclk_freq v => liftU st (RyzenAdj.set_max_fclk_freq lib st v)
  | .set_max_gfxclk_freq v => liftU st (RyzenAdj.set_max_gfxclk_freq lib st v)
  | .set_max_lclk v => liftU st (RyzenAdj.set_max_lclk lib st v)
  | .set_max_performance => liftU st (RyzenAdj.set_max_performance lib st)
  | .set_max_socclk_freq v => liftU st (RyzenAdj.set_max_socclk_freq lib st v)
  | .set_max_vcn v => liftU st (RyzenAdj.set_max_vcn lib st v)
  | .set_min_fclk_freq v => liftU st (RyzenAdj.set_min_fclk_freq lib st v)
  | .set_min_gfxclk_freq v => liftU st (RyzenAdj.set_min_gfxclk_freq lib st v)
  | .set_min_lclk v => liftU st (RyzenAdj.set_min_lclk lib st v)
  | .set_min_socclk_freq v => liftU st (RyzenAdj.set_min_socclk_freq lib st v)
  | .set_min_vcn v => liftU st (RyzenAdj.set_min_vcn lib st v)
  | .set_oc_clk v => liftU st (RyzenAdj.set_oc_clk lib st v)
  | .set_oc_volt v => liftU st (RyzenAdj.set_oc_volt lib st v)
  | .set_per_core_oc_clk v => liftU st (RyzenAdj.set_per_core_oc_clk lib st v)
  | .set_power_saving => liftU st (RyzenAdj.set_power_saving lib st)
  | .set_prochot_deassertion_ramp v => liftU st (RyzenAdj.set_prochot_deassertion_ramp lib st v)
  | .set_psi0_current v => liftU st (RyzenAdj.set_psi0_current lib st v)
  | .set_psi0soc_current v => liftU st (RyzenAdj.set_psi0soc_current lib st v)
  | .set_psi3cpu_current v => liftU st (RyzenAdj.set_psi3cpu_current lib st v)
  | .set_psi3gfx_current v => liftU st (RyzenAdj.set_psi3gfx_current lib st v)
  | .set_skin_temp_power_limit v => liftU st (RyzenAdj.set_skin_temp_power_limit lib st v)
  | .set_slow_limit v => liftU st (RyzenAdj.set_slow_limit lib st v)
  | .set_slow_time v => liftU st (RyzenAdj.set_slow_time lib st v)
  | .set_stapm_limit v => liftU st (RyzenAdj.set_stapm_limit lib st v)
  | .set_stapm_time v => liftU st (RyzenAdj.set_stapm_time lib st v)
  | .set_tctl_temp v => liftU st (RyzenAdj.set_tctl_temp lib st v)
  | .set_vrm_current v => liftU st (RyzenAdj.set_vrm_current lib st v)
  | .set_vrmcvip_current v => liftU st (RyzenAdj.set_vrmcvip_current lib st v)
  | .set_vrmgfx_current v => liftU st (RyzenAdj.set_vrmgfx_current lib st v)
  | .set_vrmgfxmax_current v => liftU st (RyzenAdj.set_vrmgfxmax_current lib st v)
  | .set_vrmmax_current v => liftU st (RyzenAdj.set_vrmmax_current lib st v)
  | .set_vrmsoc_current v => liftU st (RyzenAdj.set_vrmsoc_current lib st v)
  | .set_vrmsocmax_current v => liftU st (RyzenAdj.set_vrmsocmax_current lib st v)

/-- Native entry point and extra arguments of each read ("get")
operation; `none` for the non-read operations. -/
def Op.readDesc : Op → Option (String × List Nat)
  | .get_apu_skin_temp_limit => some ("get_apu_skin_temp_limit", [])
  | .get_apu_skin_temp_value => some ("get_apu_skin_temp_value", [])
  | .get_apu_slow_limit => some ("get_apu_slow_limit", [])
  | .get_apu_slow_value => some ("get_apu_slow_value", [])
  | .get_bios_if_ver => some ("get_bios_if_ver", [])
  | .get_cclk_busy_value => some ("get_cclk_busy_value", [])
  | .get_cclk_setpoint => some ("get_cclk_setpoint", [])
  | .get_core_clk core => some ("get_core_clk", [core])
  | .get_core_power core => some ("get_core_power", [core])
  | .get_core_temp core => some ("get_core_temp", [core])
  | .get_core_volt core => some ("get_core_volt", [core])
  | .get_cpu_family => some ("get_cpu_family", [])
  | .get_dgpu_skin_temp_limit => some ("get_dgpu_skin_temp_limit", [])
  | .get_dgpu_skin_temp_value => some ("get_dgpu_skin_temp_value", [])
  | .get_fast_limit => some ("get_fast_limit", [])
  | .get_fast_value => some ("get_fast_value", [])
  | .get_fclk => some ("get_fclk", [])
  | .get_gfx_temp => some ("get_gfx_temp", [])
  | .get_gfx_clk => some ("get_gfx_clk", [])
  | .get_gfx_volt => some ("get_gfx_volt", [])
  | .get_l3_clk => some ("get_l3_clk", [])
  | .get_l3_logic => some ("get_l3_logic", [])
  | .get_l3_temp => some ("get_l3_temp", [])
  | .get_l3_vddm => some ("get_l3_vddm", [])
  | .get_mem_clk => some ("get_mem_clk", [])
  | .get_psi0_current => some ("get_psi0_current", [])
  | .get_psi0soc_current => some ("get_psi0soc_current", [])
  | .get_slow_limit => some ("get_slow_limit", [])
  | .get_slow_time => some ("get_slow_time", [])
  | .get_slow_value => some ("get_slow_value", [])
  | .get_soc_power => some ("get_soc_power", [])
  | .get_soc_volt => some ("get_soc_volt", [])
  | .get_socket_power => some ("get_socket_power", [])
  | .get_stapm_limit => some ("get_stapm_limit", [])
  | .get_stapm_time => some ("get_stapm_time", [])
  | .get_stapm_value => some ("get_stapm_value", [])
  | .get_tctl_temp => some ("get_tctl_temp", [])
  | .get_tctl_temp_value => some ("get_tctl_temp", [])
  | .get_vrm_current => some ("get_vrm_current", [])
  | .get_vrm_current_value => some ("get_vrm_current_value", [])
  | .get_vrmmax_current => some ("get_vrmmax_current", [])
  | .get_vrmmax_current_value => some ("get_vrmmax_current_value", [])
  | .get_vrmsoc_current => some ("get_vrmsoc_current", [])
  | .get_vrmsoc_current_value => some ("get_vrmsoc_current_value", [])
  | .get_vrmsocmax_current => some ("get_vrmsocmax_current", [])
  | .get_vrmsocmax_current_value => some ("get_vrmsocmax_current_value", [])
  | _ => none

/-- Restriction of `Op.readDesc` to the floating-point reads: every read
except the integer `get_bios_if_ver` and the family read `get_cpu_family`. -/
def Op.floatReadDesc (op : Op) : Option (String × List Nat) :=
  match op with
  | .get_bios_if_ver => none
  | .get_cpu_family => none
  | _ => Op.readDesc op

/-- Native entry point and arguments of each write ("set") operation;
`none` for the non-write operations.  The curve-optimizer and dGPU
setters name `set_coall` because their bodies invoke it. -/
def Op.writeDesc : Op → Option (String × List Nat)
  | .set_apu_skin_temp_limit v => some ("set_apu_skin_temp_limit", [v])
  | .set_apu_slow_limit v => some ("set_apu_slow_limit", [v])
  | .set_coall v => some ("set_coall", [v])
  | .set_cogfx v => some ("set_coall", [v])
  | .set_coper v => some ("set_coall", [v])
  | .set_dgpu_skin_temp_limit v => some ("set_coall", [v])
  | .set_enable_oc => some ("set_enable_oc", [])
  | .set_disable_oc => some ("set_disable_oc", [])
  | .set_fast_limit v => some ("set_fast_limit", [v])
  | .set_gfx_clk v => some ("set_gfx_clk", [v])
  | .set_max_fclk_freq v => some ("set_max_fclk_freq", [v])
  | .set_max_gfxclk_freq v => some ("set_max_gfxclk_freq", [v])
  | .set_max_lclk v => some ("set_max_lclk", [v])
  | .set_max_performance => some ("set_max_performance", [])
  | .set_max_socclk_freq v => some ("set_max_socclk_freq", [v])
  | .set_max_vcn v => some ("set_max_vcn", [v])
  | .set_min_fclk_freq v => some ("set_min_fclk_freq", [v])
  | .set_min_gfxclk_freq v => some ("set_min_gfxclk_freq", [v])
  | .set_min_lclk v => some ("set_min_lclk", [v])
  | .set_min_socclk_freq v => some ("set_min_socclk_freq", [v])
  | .set_min_vcn v => some ("set_min_vcn", [v])
  | .set_oc_clk v => some ("set_oc_clk", [v])
  | .set_oc_volt v => some ("set_oc_volt", [v])
  | .set_per_core_oc_clk v => some ("set_per_core_oc_clk", [v])
  | .set_power_saving => some ("set_power_saving", [])
  | .set_prochot_deassertion_ramp v => some ("set_prochot_deassertion_ramp", [v])
  | .set_psi0_current v => some ("set_psi0_current", [v])
  | .set_psi0soc_current v => some ("set_psi0soc_current", [v])
  | .set_psi3cpu_current v => some ("set_psi3cpu_current", [v])
  | .set_psi3gfx_current v => some ("set_psi3gfx_current", [v])
  | .set_skin_temp_power_limit v => some ("set_skin_temp_power_limit", [v])
  | .set_slow_limit v => some ("set_slow_limit", [v])
  | .set_slow_time v => some ("set_slow_time", [v])
  | .set_stapm_limit v => some ("set_stapm_limit", [v])
  | .set_stapm_time v => some ("set_stapm_time", [v])
  | .set_tctl_temp v => some ("set_tctl_temp", [v])
  | .set_vrm_current v => some ("set_vrm_current", [v])
  | .set_vrmcvip_current v => some ("set_vrmcvip_current", [v])
  | .set_vrmgfx_current v => some ("set_vrmgfx_current", [v])
  | .set_vrmgfxmax_current v => some ("set_vrmgfxmax_current", [v])
  | .set_vrmmax_current v => some ("set_vrmmax_current", [v])
  | .set_vrmsoc_current v => some ("set_vrmsoc_current", [v])
  | .set_vrmsocmax_current v => some ("set_vrmsocmax_current", [v])
  | _ => none

def Op.isRead (op : Op) : Bool := op.readDesc.isSome

def Op.isWrite (op : Op) : Bool := op.writeDesc.isSome

/-- Outcome a write's status code is translated to (matches how `liftU`
renders `RyzenAdj::adj_code`). -/
def adjOut (code : Int) : OpOutcome := OpOutcome.ofU (RyzenAdj.adj_code code)

def isCleanup (c : NativeCall) : Bool := c.name == "cleanup_ryzenadj"

/-- Concrete benign oracle: acquisition yields handle 0, every status
code is 0 and every reading is the non-NaN value 0. -/
def libK : NativeLib :=
  { initHandle := some 0
    errnoVal := 0
    f32Of := fun _ _ _ => .fin 0
    intOf := fun _ _ => 0
    statusOf := fun _ _ _ => 0 }

/-- Concrete failing oracle: acquisition yields a null handle with
errno 13, and (for sessions built by hand) readings are NaN and status
codes non-zero. -/
def libBad : NativeLib :=
  { initHandle := none
    errnoVal := 13
    f32Of := fun _ _ _ => .nan
    intOf := fun _ _ => 261
    statusOf := fun _ _ _ => -17 }

/-- C1 counterexample: a session whose table init failed with status 1,
against an oracle whose underlying refresh reports zero and whose
readings are non-NaN.  `refresh` nevertheless fails with the stored
status and performs no native call, and a subsequent read still fails —
the recorded Table-Init Status was not cleared. -/
theorem c1_counterexample :
    libK.statusOf "refresh_table" 0 [] = 0
    ∧ RyzenAdj.refresh libK ⟨0, some 1⟩ = (.error (.InitTableError 1), [])
    ∧ (RyzenAdj.get_socket_power libK ⟨0, some 1⟩).1 = .error (.InitTableError 1) :=
  ⟨rfl, rfl, rfl⟩

/-- C1 amended: `refresh` on a session with a recorded Table-Init Status
can never succeed — it short-circuits with `InitTableError` carrying the
stored status, without the native refresh call, and the stored status is
never cleared, so reads that failed with the stored status keep failing;
only on a session with no recorded failure does `refresh` run the native
refresh and succeed exactly when it reports zero. -/
theorem c1_amended_refresh_permanent (lib : NativeLib) (h : Nat) (S : Int) :
    RyzenAdj.refresh lib ⟨h, some S⟩ = (.error (.InitTableError S), [])
    ∧ RyzenAdj.refresh lib ⟨h, none⟩
        = (if lib.statusOf "refresh_table" h [] ≠ 0
            then .error (.InitTableError (lib.statusOf "refresh_table" h []))
            else .ok (),
           [⟨"refresh_table", some h, []⟩])
    ∧ (RyzenAdj.get_socket_power lib ⟨h, some S⟩).1 = .error (.InitTableError S) :=
  ⟨rfl, rfl, rfl⟩

/-- C2 counterexample: `set_coall` applied to 31 — as a signed offset,
outside [-30, +30] — does not fail with any out-of-range error: the
native call is made with magnitude 31 and the status-derived result is
returned.  Applied to 30, the native magnitude is 30, not
`0x100000 - 30 = 1048546`.  `set_coper` takes no core index and passes
its single argument through unchanged to the native `set_coall` — no
`core * 0x100000 + (0x100000 - offset)` encoding is performed. -/
theorem c2_counterexample :
    RyzenAdj.set_coall libK ⟨0, none⟩ 31 = (.ok (), [⟨"set_coall", some 0, [31]⟩])
    ∧ RyzenAdj.set_coall libK ⟨0, none⟩ 30 = (.ok (), [⟨"set_coall", some 0, [30]⟩])
    ∧ RyzenAdj.set_coper libK ⟨0, none⟩ 5 = (.ok (), [⟨"set_coall", some 0, [5]⟩]) :=
  ⟨rfl, rfl, rfl⟩

/-- C2 amended: the curve-optimizer write operations take a raw unsigned
magnitude, perform no range validation and no signed-offset encoding,
and for every input make the native `set_coall` call with the magnitude
unchanged, returning the status-derived result; `set_coper` takes no
core index and behaves identically to `set_coall`. -/
theorem c2_amended_passthrough (lib : NativeLib) (st : RyzenAdj) (v : Nat) :
    RyzenAdj.set_coall lib st v
      = (RyzenAdj.adj_code (lib.statusOf "set_coall" st.ryzen_adj [v]),
         [⟨"set_coall", some st.ryzen_adj, [v]⟩])
    ∧ RyzenAdj.set_coper lib st v = RyzenAdj.set_coall lib st v :=
  ⟨rfl, rfl⟩

/-- C9: `set_coper`, `set_cogfx` and `set_dgpu_skin_temp_limit` are each
extensionally equal to `set_coall` — all four invoke the same native
`set_coall` entry point — and `get_tctl_temp_value` is extensionally
equal to `get_tctl_temp`, invoking the native `get_tctl_temp` rather
than a distinct value-reading call. -/
theorem c9_copy_paste_aliasing (lib : NativeLib) (st : RyzenAdj) (v : Nat) :
    RyzenAdj.set_coper lib st v = RyzenAdj.set_coall lib st v
    ∧ RyzenAdj.set_cogfx lib st v = RyzenAdj.set_coall lib st v
    ∧ RyzenAdj.set_dgpu_skin_temp_limit lib st v = RyzenAdj.set_coall lib st v
    ∧ RyzenAdj.get_tctl_temp_value lib st = RyzenAdj.get_tctl_temp lib st
    ∧ (RyzenAdj.set_coall lib st v).2 = [⟨"set_coall", some st.ryzen_adj, [v]⟩] :=
  ⟨rfl, rfl, rfl, rfl, rfl⟩

/-- C10: no public operation modifies the recorded Table-Init Status —
every operation returns the session state unchanged — and `refresh` on a
session with a recorded failure short-circuits with the stored status
before attempting the native refresh, so the blocked-reads state is
permanent for the lifetime of the instance. -/
theorem c10_init_status_immutable (lib : NativeLib) (st : RyzenAdj) (op : Op)
    (h : Nat) (S : Int) :
    (Op.run lib st op).post = st
    ∧ Op.run lib ⟨h, some S⟩ .refresh
        = ⟨.err (.InitTableError S), [], ⟨h, some S⟩⟩ := by
  cases op <;> exact ⟨rfl, rfl⟩


/-- C3: on a session whose table initialization failed with status S,
every read operation fails with `InitTableError S` making no native
call, while every write operation still makes its own native call and
returns the result derived from that call's status code; on a session
with no recorded failure, every read proceeds to its native call. -/
theorem c3_table_init_gate (lib : NativeLib) (h : Nat) (S : Int) (op : Op) :
    (∀ n args, Op.readDesc op = some (n, args) →
        Op.run lib ⟨h, some S⟩ op = ⟨.err (.InitTableError S), [], ⟨h, some S⟩⟩
        ∧ (Op.run lib ⟨h, none⟩ op).trace = [⟨n, some h, args⟩])
    ∧ (∀ n args, Op.writeDesc op = some (n, args) →
        Op.run lib ⟨h, some S⟩ op
          = ⟨adjOut (lib.statusOf n h args), [⟨n, some h, args⟩], ⟨h, some S⟩⟩) := by
  cases op <;>
    exact ⟨fun n args hd => by
        first
          | (injection hd with hd1; injection hd1 with hn ha; subst hn; subst ha;
             exact ⟨rfl, rfl⟩)
          | injection hd,
      fun n args hd => by
        first
          | (injection hd with hd1; injection hd1 with hn ha; subst hn; subst ha; rfl)
          | injection hd⟩

/-- C3 witness: with a concrete failing oracle and the failure status 7
recorded, the read `get_socket_power` is blocked with `InitTableError 7`
and no native call, while the write `set_stapm_limit 5` still makes its
native call and returns the status-derived result. -/
theorem c3_witness :
    Op.run libBad ⟨0, some 7⟩ .get_socket_power
      = ⟨.err (.InitTableError 7), [], ⟨0, some 7⟩⟩
    ∧ Op.run libBad ⟨0, some 7⟩ (.set_stapm_limit 5)
      = ⟨adjOut (libBad.statusOf "set_stapm_limit" 0 [5]),
         [⟨"set_stapm_limit", some 0, [5]⟩], ⟨0, some 7⟩⟩ :=
  ⟨((c3_table_init_gate libBad 0 7 .get_socket_power).1 "get_socket_power" [] rfl).1,
   (c3_table_init_gate libBad 0 7 (.set_stapm_limit 5)).2 "set_stapm_limit" [5] rfl⟩

/-- C4: for every floating-point read on a session with no recorded
table-init failure, a NaN native value makes the operation fail with
`GetNaN` (the NaN is not returned), and a non-NaN native value is
returned exactly as reported, unchanged. -/
theorem c4_nan_guard (lib : NativeLib) (h : Nat) (op : Op) (n : String)
    (args : List Nat) (hd : Op.floatReadDesc op = some (n, args)) :
    ((lib.f32Of n h args).is_nan = true →
      Op.run lib ⟨h, none⟩ op = ⟨.err .GetNaN, [⟨n, some h, args⟩], ⟨h, none⟩⟩)
    ∧ ((lib.f32Of n h args).is_nan = false →
      Op.run lib ⟨h, none⟩ op
        = ⟨.okF32 (lib.f32Of n h args), [⟨n, some h, args⟩], ⟨h, none⟩⟩) := by
  cases op <;>
    first
      | (injection hd with hd1; injection hd1 with hn ha; subst hn; subst ha;
         refine ⟨fun hnan => ?_, fun hnan => ?_⟩ <;>
           simp [Op.run, RyzenAdj.get_apu_skin_temp_limit, RyzenAdj.get_apu_skin_temp_value,
             RyzenAdj.get_apu_slow_limit, RyzenAdj.get_apu_slow_value,
             RyzenAdj.get_cclk_busy_value, RyzenAdj.get_cclk_setpoint, RyzenAdj.get_core_clk,
             RyzenAdj.get_core_power, RyzenAdj.get_core_temp, RyzenAdj.get_core_volt,
             RyzenAdj.get_dgpu_skin_temp_limit, RyzenAdj.get_dgpu_skin_temp_value,
             RyzenAdj.get_fast_limit, RyzenAdj.get_fast_value, RyzenAdj.get_fclk,
             RyzenAdj.get_gfx_temp, RyzenAdj.get_gfx_clk, RyzenAdj.get_gfx_volt,
             RyzenAdj.get_l3_clk, RyzenAdj.get_l3_logic, RyzenAdj.get_l3_temp,
             RyzenAdj.get_l3_vddm, RyzenAdj.get_mem_clk, RyzenAdj.get_psi0_current,
             RyzenAdj.get_psi0soc_current, RyzenAdj.get_slow_limit, RyzenAdj.get_slow_time,
             RyzenAdj.get_slow_value, RyzenAdj.get_soc_power, RyzenAdj.get_soc_volt,
             RyzenAdj.get_socket_power, RyzenAdj.get_stapm_limit, RyzenAdj.get_stapm_time,
             RyzenAdj.get_stapm_value, RyzenAdj.get_tctl_temp, RyzenAdj.get_tctl_temp_value,
             RyzenAdj.get_vrm_current, RyzenAdj.get_vrm_current_value,
             RyzenAdj.get_vrmmax_current, RyzenAdj.get_vrmmax_current_value,
             RyzenAdj.get_vrmsoc_current, RyzenAdj.get_vrmsoc_current_value,
             RyzenAdj.get_vrmsocmax_current, RyzenAdj.get_vrmsocmax_current_value,
             RyzenAdj.getF, RyzenAdj.getFCore, RyzenAdj.is_init_table, RyzenAdj.is_nan,
             liftF, OpOutcome.ofF, hnan])
      | injection hd

/-- C4 witness: against the oracle whose readings are all NaN,
`get_socket_power` fails with `GetNaN`; against the oracle whose
readings are the non-NaN value 0, it returns exactly that value. -/
theorem c4_witness :
    Op.run libBad ⟨0, none⟩ .get_socket_power
      = ⟨.err .GetNaN, [⟨"get_socket_power", some 0, []⟩], ⟨0, none⟩⟩
    ∧ Op.run libK ⟨0, none⟩ .get_socket_power
      = ⟨.okF32 (.fin 0), [⟨"get_socket_power", some 0, []⟩], ⟨0, none⟩⟩ :=
  ⟨(c4_nan_guard libBad 0 .get_socket_power "get_socket_power" [] rfl).1 rfl,
   (c4_nan_guard libK 0 .get_socket_power "get_socket_power" [] rfl).2 rfl⟩

/-- C5: a write status code of zero yields success; each of the five
native sentinel codes yields its named error kind; any other non-zero
code yields `AdjUnknowError` carrying that exact code.  The mapping is a
total function of the code, so the classifications are mutually
exclusive. -/
theorem c5_adj_code_classification (code : Int) :
    (code = 0 → RyzenAdj.adj_code code = .ok ())
    ∧ (code = ADJ_ERR_FAM_UNSUPPORTED →
        RyzenAdj.adj_code code = .error .AdjFamilyNotSupported)
    ∧ (code = ADJ_ERR_MEMORY_ACCESS →
        RyzenAdj.adj_code code = .error .AdjMemoryAccessError)
    ∧ (code = ADJ_ERR_SMU_REJECTED → RyzenAdj.adj_code code = .error .AdjSmuRejected)
    ∧ (code = ADJ_ERR_SMU_TIMEOUT → RyzenAdj.adj_code code = .error .AdjSmuTimeout)
    ∧ (code = ADJ_ERR_SMU_UNSUPPORTED →
        RyzenAdj.adj_code code = .error .AdjSmuUnsupported)
    ∧ (code ≠ 0 → code ≠ ADJ_ERR_FAM_UNSUPPORTED → code ≠ ADJ_ERR_MEMORY_ACCESS →
        code ≠ ADJ_ERR_SMU_REJECTED → code ≠ ADJ_ERR_SMU_TIMEOUT →
        code ≠ ADJ_ERR_SMU_UNSUPPORTED →
        RyzenAdj.adj_code code = .error (.AdjUnknowError code)) := by
  refine ⟨?_, ?_, ?_, ?_, ?_, ?_, ?_⟩
  · intro h1; subst h1; rfl
  · intro h1; subst h1; rfl
  · intro h1; subst h1; rfl
  · intro h1; subst h1; rfl
  · intro h1; subst h1; rfl
  · intro h1; subst h1; rfl
  · intro h1 h2 h3 h4 h5 h6
    simp [RyzenAdj.adj_code, h1, h2, h3, h4, h5, h6]

/-- C5 witness: status 0 reports success, the sentinel -4 maps to
`AdjSmuRejected`, and the unmapped negative code -42 maps to
`AdjUnknowError (-42)`. -/
theorem c5_witness :
    RyzenAdj.adj_code 0 = .ok ()
    ∧ RyzenAdj.adj_code (-4) = .error .AdjSmuRejected
    ∧ RyzenAdj.adj_code (-42) = .error (.AdjUnknowError (-42)) :=
  ⟨(c5_adj_code_classification 0).1 rfl,
   (c5_adj_code_classification (-4)).2.2.2.1 rfl,
   (c5_adj_code_classification (-42)).2.2.2.2.2.2 (by decide) (by decide) (by decide)
     (by decide) (by decide) (by decide)⟩

/-- C6: the CPU-family read on an unblocked session maps a recognized
raw identifier into the closed `RyzenFamily` enumeration, and fails with
`UnknowFamily` carrying the exact raw identifier — not `GetNaN` and not
any fallback family — on every unrecognized identifier; an identifier is
unrecognized exactly when it lies outside the declared discriminants
-1..7. -/
theorem c6_cpu_family_mapping (lib : NativeLib) (h : Nat) :
    (∀ f, RyzenFamily.try_from (lib.intOf "get_cpu_family" h) = some f →
        RyzenAdj.get_cpu_family lib ⟨h, none⟩
          = (.ok f, [⟨"get_cpu_family", some h, []⟩]))
    ∧ (RyzenFamily.try_from (lib.intOf "get_cpu_family" h) = none →
        RyzenAdj.get_cpu_family lib ⟨h, none⟩
          = (.error (.UnknowFamily (lib.intOf "get_cpu_family" h)),
             [⟨"get_cpu_family", some h, []⟩]))
    ∧ (∀ raw : Int, RyzenFamily.try_from raw = none ↔ (raw < -1 ∨ 7 < raw)) := by
  refine ⟨?_, ?_, ?_⟩
  · intro f hf
    simp [RyzenAdj.get_cpu_family, RyzenAdj.is_init_table, hf]
  · intro hf
    simp [RyzenAdj.get_cpu_family, RyzenAdj.is_init_table, hf]
  · intro raw
    unfold RyzenFamily.try_from ryzen_family_FAM_UNKNOWN ryzen_family_FAM_RAVEN
      ryzen_family_FAM_PICASSO ryzen_family_FAM_RENOIR ryzen_family_FAM_CEZANNE
      ryzen_family_FAM_DALI ryzen_family_FAM_LUCIENNE ryzen_family_FAM_VANGOGH
      ryzen_family_FAM_REMBRANDT
    split_ifs <;> simp_all <;> omega

/-- C6 witness: raw identifier 0 maps to the `Raven` family; the
unrecognized raw identifier 261 fails with `UnknowFamily 261`. -/
theorem c6_witness :
    RyzenAdj.get_cpu_family libK ⟨0, none⟩
      = (.ok .Raven, [⟨"get_cpu_family", some 0, []⟩])
    ∧ RyzenAdj.get_cpu_family libBad ⟨0, none⟩
      = (.error (.UnknowFamily 261), [⟨"get_cpu_family", some 0, []⟩]) :=
  ⟨(c6_cpu_family_mapping libK 0).1 .Raven (by decide),
   (c6_cpu_family_mapping libBad 0).2.1 (by decide)⟩

/-- C7: construction with a null native handle fails with `InitError`
carrying the errno observed at that moment and acquires no session;
with a non-null handle, the table initialization is attempted exactly
once, a non-zero status is retained as the recorded Table-Init Status
while the constructor still succeeds, and a zero status leaves the
recorded status cleared. -/
theorem c7_construction (lib : NativeLib) :
    (lib.initHandle = none →
      RyzenAdj.new lib = (.error (.InitError lib.errnoVal), [⟨"init_ryzenadj", none, []⟩]))
    ∧ (∀ h r, lib.initHandle = some h → lib.statusOf "init_table" h [] = r →
        (RyzenAdj.new lib).2 = [⟨"init_ryzenadj", none, []⟩, ⟨"init_table", some h, []⟩]
        ∧ (r ≠ 0 → (RyzenAdj.new lib).1 = .ok ⟨h, some r⟩)
        ∧ (r = 0 → (RyzenAdj.new lib).1 = .ok ⟨h, none⟩)) := by
  constructor
  · intro hn
    simp [RyzenAdj.new, hn]
  · intro h r hh hr
    refine ⟨?_, ?_, ?_⟩
    · simp [RyzenAdj.new, hh]
    · intro hne
      simp [RyzenAdj.new, hh, hr, hne]
    · intro he
      simp [RyzenAdj.new, hh, hr, he]

/-- C7 witness: against the null-handle oracle, construction fails with
`InitError 13`; against the benign oracle (handle 0, table-init status
0), construction succeeds with no recorded Table-Init Status. -/
theorem c7_witness :
    RyzenAdj.new libBad = (.error (.InitError 13), [⟨"init_ryzenadj", none, []⟩])
    ∧ (RyzenAdj.new libK).1 = .ok ⟨0, none⟩ :=
  ⟨(c7_construction libBad).1 rfl,
   ((c7_construction libK).2 0 0 rfl rfl).2.2 rfl⟩

/-- C8: teardown performs exactly one native release of the owned
session handle, and no other code path releases it — no public
operation's trace and no construction trace contains a
`cleanup_ryzenadj` call — so, with the destructor invoked once per
instance by the language runtime, the handle is released exactly once
with no double-release and no leak. -/
theorem c8_single_release (lib : NativeLib) (st : RyzenAdj) (op : Op) :
    RyzenAdj.drop st = [⟨"cleanup_ryzenadj", some st.ryzen_adj, []⟩]
    ∧ List.countP isCleanup (RyzenAdj.drop st) = 1
    ∧ List.countP isCleanup (Op.run lib st op).trace = 0
    ∧ List.countP isCleanup (RyzenAdj.new lib).2 = 0 := by
  refine ⟨rfl, rfl, ?_, ?_⟩
  · obtain ⟨hh, it⟩ := st
    cases it <;> cases op <;> rfl
  · cases hi : lib.initHandle <;> simp [RyzenAdj.new, hi] <;>
      first
        | exact ⟨rfl, rfl⟩
        | rfl
